import Mathlib

/-!
Verification of the xpyun-sdk authentication and dispatch core.

The definitions below are a shallow embedding of `src/xpyun_sdk/auth.py`,
`src/xpyun_sdk/client.py` and `src/xpyun_sdk/exceptions.py`.  Machine
integers are modelled as `Nat` with explicit `% 2^32` where 32-bit overflow
matters.  The clock reads (`time.time()`) are modelled by passing the
current time as an explicit parameter.
-/

namespace XpyunSdk

/-- JSON values, as produced by the JSON codec when parsing a response body.
Python dicts are modelled as association lists (insertion ordered, unique
keys); a parsed JSON `null` is Python `None`.  Numbers are restricted to
integers, which covers every value the claims mention. -/
inductive Json where
  | null
  | bool (b : Bool)
  | num (n : Int)
  | str (s : String)
  | arr (elems : List Json)
  | obj (fields : List (String × Json))
deriving Repr

/-! ### SHA-1 (model of `hashlib.sha1`)

Modelled from the spec: `hashlib.sha1` is a Python standard-library
primitive, not code of this repository; the spec describes it as "a
cryptographic hash function producing a 160-bit digest, rendered as 40
lowercase hex characters", i.e. SHA-1 (FIPS 180).  The definitions below
implement SHA-1 over byte lists, with words as `Nat` reduced `% 2^32`. -/

/-- 2^32, the word modulus of SHA-1. -/
def w32 : Nat := 4294967296

/-- Left rotation of a 32-bit word by `n` bits. -/
def rotl (n x : Nat) : Nat := (x * 2 ^ n + x / 2 ^ (32 - n)) % w32

/-- Big-endian byte rendering of `v` on `n` bytes. -/
def beBytes : Nat → Nat → List Nat
  | 0, _ => []
  | n + 1, v => beBytes n (v / 256) ++ [v % 256]

/-- SHA-1 message padding: append `0x80`, zero bytes up to 56 mod 64, then
the 64-bit big-endian bit length. -/
def sha1Pad (msg : List Nat) : List Nat :=
  let L := msg.length
  let k := (119 - L % 64) % 64
  msg ++ [128] ++ List.replicate k 0 ++ beBytes 8 (8 * L)

/-- Split a byte list into 64-byte blocks; `fuel` bounds the recursion and
equals the block count when the input length is a multiple of 64. -/
def chunk64 : Nat → List Nat → List (List Nat)
  | 0, _ => []
  | fuel + 1, l => l.take 64 :: chunk64 fuel (l.drop 64)

/-- Parse a 64-byte block into 16 big-endian 32-bit words. -/
def blockWords (block : List Nat) : List Nat :=
  (List.range 16).map fun i =>
    block.getD (4 * i) 0 * 16777216 + block.getD (4 * i + 1) 0 * 65536 +
    block.getD (4 * i + 2) 0 * 256 + block.getD (4 * i + 3) 0

/-- Extend the 16-word schedule to 80 words:
`w[t] = rotl 1 (w[t-3] ^ w[t-8] ^ w[t-14] ^ w[t-16])`. -/
def extendSchedule : Nat → List Nat → List Nat
  | 0, ws => ws
  | fuel + 1, ws =>
    let n := ws.length
    let next := rotl 1 (ws.getD (n - 3) 0 ^^^ ws.getD (n - 8) 0 ^^^
                        ws.getD (n - 14) 0 ^^^ ws.getD (n - 16) 0)
    extendSchedule fuel (ws ++ [next])

/-- The five 32-bit chaining words of the SHA-1 state. -/
structure Sha1State where
  h0 : Nat
  h1 : Nat
  h2 : Nat
  h3 : Nat
  h4 : Nat
deriving Repr, DecidableEq

/-- SHA-1 initial state. -/
def sha1Init : Sha1State :=
  ⟨1732584193, 4023233417, 2562383102, 271733878, 3285377520⟩

/-- Round function `f_t(b,c,d)` of SHA-1. -/
def sha1F (t b c d : Nat) : Nat :=
  if t < 20 then (b &&& c) ||| ((w32 - 1 - b) &&& d)
  else if t < 40 then b ^^^ c ^^^ d
  else if t < 60 then (b &&& c) ||| (b &&& d) ||| (c &&& d)
  else b ^^^ c ^^^ d

/-- Round constant `K_t` of SHA-1. -/
def sha1K (t : Nat) : Nat :=
  if t < 20 then 1518500249
  else if t < 40 then 1859775393
  else if t < 60 then 2400959708
  else 3395469782

/-- One SHA-1 round: update the working variables `(a,b,c,d,e)` with word
`wt` at round index `t`. -/
def sha1Round (st : Nat × Nat × Nat × Nat × Nat) (tw : Nat × Nat) :
    Nat × Nat × Nat × Nat × Nat :=
  let (a, b, c, d, e) := st
  let (t, wt) := tw
  let temp := (rotl 5 a + sha1F t b c d + e + sha1K t + wt) % w32
  (temp, a, rotl 30 b, c, d)

/-- Compress one 64-byte block into the chaining state. -/
def sha1Compress (st : Sha1State) (block : List Nat) : Sha1State :=
  let ws := extendSchedule 64 (blockWords block)
  let (a, b, c, d, e) :=
    ws.enum.foldl sha1Round (st.h0, st.h1, st.h2, st.h3, st.h4)
  ⟨(st.h0 + a) % w32, (st.h1 + b) % w32, (st.h2 + c) % w32,
   (st.h3 + d) % w32, (st.h4 + e) % w32⟩

/-- SHA-1 digest of a byte list, as the five chaining words. -/
def sha1Digest (msg : List Nat) : Sha1State :=
  let padded := sha1Pad msg
  (chunk64 (padded.length / 64) padded).foldl sha1Compress sha1Init

/-- Lowercase hex character for a nibble value below 16. -/
def hexDigit (m : Nat) : Char :=
  if m < 10 then Char.ofNat (48 + m) else Char.ofNat (87 + m)

/-- Lowercase hex character of the low nibble of `n`. -/
def hexChar (n : Nat) : Char := hexDigit (n % 16)

/-- The sixteen lowercase hexadecimal digit characters. -/
def hexDigits : List Char := (List.range 16).map hexDigit

/-- Render a 32-bit word as 8 lowercase hex characters. -/
def wordHex (x : Nat) : List Char :=
  [hexChar (x / 268435456), hexChar (x / 16777216), hexChar (x / 1048576),
   hexChar (x / 65536), hexChar (x / 4096), hexChar (x / 256),
   hexChar (x / 16), hexChar x]

/-- `hexdigest()` of the SHA-1 digest: 40 lowercase hex characters. -/
def sha1HexDigest (msg : List Nat) : String :=
  let d := sha1Digest msg
  String.mk (wordHex d.h0 ++ wordHex d.h1 ++ wordHex d.h2 ++
             wordHex d.h3 ++ wordHex d.h4)

/-! ### UTF-8 encoding (model of `str.encode` with encoding utf-8) -/

/-- UTF-8 encoding of a single code point (Lean `Char` excludes
surrogates, as Python `str` code points used on this path do). -/
def utf8EncodeCharBytes (c : Char) : List Nat :=
  let n := c.toNat
  if n < 128 then [n]
  else if n < 2048 then [192 + n / 64, 128 + n % 64]
  else if n < 65536 then [224 + n / 4096, 128 + n / 64 % 64, 128 + n % 64]
  else [240 + n / 262144, 128 + n / 4096 % 64, 128 + n / 64 % 64, 128 + n % 64]

/-- UTF-8 encoding of a string as a byte list. -/
def utf8Encode (s : String) : List Nat :=
  (s.data.map utf8EncodeCharBytes).flatten

/-- ASCII lowercase of one character (model of Python `str.lower` on the
characters a hex digest can contain). -/
def lowerChar (c : Char) : Char :=
  if 65 ≤ c.toNat ∧ c.toNat ≤ 90 then Char.ofNat (c.toNat + 32) else c

/-- ASCII lowercase of a string. -/
def lowerAscii (s : String) : String := String.mk (s.data.map lowerChar)

/-! ### `XpyunAuth` (src/xpyun_sdk/auth.py) -/

/-- `XpyunAuth.generate_sign`: concatenate `user + user_key + timestamp`,
SHA-1 the UTF-8 encoding, render as lowercase hex (`hexdigest().lower()`).
`user`/`user_key` are the credentials given at construction; a `None`
timestamp argument is modelled by the caller passing the decimal rendering
of the current time. -/
def generate_sign (user user_key timestamp : String) : String :=
  lowerAscii (sha1HexDigest (utf8Encode (user ++ user_key ++ timestamp)))

/-- `XpyunAuth.get_auth_params`: read the clock (`now`, in seconds), render
it as a decimal string, sign with it, and return the
`{user, timestamp, sign}` dict. -/
def get_auth_params (user user_key : String) (now : Nat) :
    List (String × String) :=
  let timestamp := toString now
  let sign := generate_sign user user_key timestamp
  [("user", user), ("timestamp", timestamp), ("sign", sign)]

/-! ### Exception taxonomy (src/xpyun_sdk/exceptions.py)

`XpyunError` is the base; `XpyunAuthError`, `XpyunAPIError` and
`XpyunNetworkError` are its subclasses.  The inductive below has one
constructor per concrete class raised; `XpyunAPIError` carries the
`code`, `message` and `data` attributes set in its `__init__` (a Python
`None` in those attributes is `Json.null`). -/
inductive XpyunExc where
  | xpyunError (message : String)
  | xpyunAuthError (message : String)
  | xpyunAPIError (code : Json) (message : Json) (data : Json)
  | xpyunNetworkError (message : String)
deriving Repr

/-! ### `XpyunClient._make_request` (src/xpyun_sdk/client.py) -/

/-- Python `result.get('code') != 0` tested for equality with the int `0`:
the int `0` and the bool `False` compare equal to `0`; every other value
(including `None` for an absent key) is `!= 0`.  Returns whether the value
equals `0`. -/
def pyEqZero : Json → Bool
  | .num 0 => true
  | .bool false => true
  | _ => false

/-- `dict.get(k)`: the stored value when the key is present, Python `None`
(i.e. `Json.null`) otherwise. -/
def pyGet (fields : List (String × Json)) (k : String) : Json :=
  match fields.lookup k with
  | some v => v
  | none => .null

/-- `dict.get(k, default)`: the stored value when the key is present (even
when that value is `null`), the default otherwise. -/
def pyGetD (fields : List (String × Json)) (k : String) (d : Json) : Json :=
  match fields.lookup k with
  | some v => v
  | none => d

/-- `d[k] = v` on a Python dict: replaces the value in place when the key
exists, appends at the end otherwise (insertion order preserved). -/
def dictSet : List (String × Json) → String → Json → List (String × Json)
  | [], k, v => [(k, v)]
  | (k1, v1) :: rest, k, v =>
    if k1 == k then (k1, v) :: rest else (k1, v1) :: dictSet rest k v

/-- `d.update(params)`: assign every binding of `params` into `d`, in
order; a caller binding for an existing key overwrites it. -/
def dictUpdate (d params : List (String × Json)) : List (String × Json) :=
  params.foldl (fun acc kv => dictSet acc kv.1 kv.2) d

/-- The outgoing envelope built by `_make_request`: `get_auth_params()`
(string values), then `request_data['requestTime'] = int(time.time()*1000)`,
then `if params: request_data.update(params)`. -/
def buildRequestData (user user_key : String) (now nowMs : Nat)
    (params : List (String × Json)) : List (String × Json) :=
  let request_data :=
    (get_auth_params user user_key now).map fun kv => (kv.1, Json.str kv.2)
  let request_data := dictSet request_data "requestTime" (.num nowMs)
  if params.isEmpty then request_data else dictUpdate request_data params

/-- Outcome of the single `session.post` transport call: either the
request itself fails (`requests.exceptions.RequestException`: connection
refused, timeout, DNS failure, TLS failure) with a cause message, or an
HTTP response arrives with a status code and a body that either fails
JSON parsing (with the parser's error message) or parses to a value. -/
inductive HttpResult where
  | transportError (cause : String)
  | response (status : Nat) (body : Except String Json)

/-- Python exceptions the `try` body of `_make_request` can raise:
`requests.exceptions.RequestException` (from `post` or
`raise_for_status`), `json.JSONDecodeError` (from parsing the body),
`XpyunAPIError` (raised on a non-zero `code`), or any other exception
(e.g. an `AttributeError` when the parsed body is not a dict). -/
inductive PyExc where
  | requestException (msg : String)
  | jsonDecodeError (msg : String)
  | apiError (code : Json) (message : Json) (data : Json)
  | otherError (msg : String)

/-- Modelled from the spec: the message of the `HTTPError` that the
transport library's `raise_for_status` raises on a 4xx/5xx status.  The
library is not repository code; only the classification of this failure
matters to the claims, not its text. -/
def httpStatusError (status : Nat) : String :=
  toString status ++ " HTTP error"

/-- The `try` body of `_make_request`, from `session.post` through the
`code` check: `raise_for_status` raises `HTTPError` (a
`RequestException`) on any 4xx/5xx status before the body is parsed;
`response.json()` raises `json.JSONDecodeError` on an invalid body; a
parsed dict with `code != 0` raises `XpyunAPIError` with
`result.get('code')`, `result.get('msg', '未知错误')` and
`result.get('data')`; otherwise the full parsed object is returned. -/
def tryBody (resp : HttpResult) : Except PyExc Json :=
  match resp with
  | .transportError cause => .error (.requestException cause)
  | .response status body =>
    if 400 ≤ status ∧ status < 600 then
      .error (.requestException (httpStatusError status))
    else
      match body with
      | .error e => .error (.jsonDecodeError e)
      | .ok result =>
        match result with
        | .obj fields =>
          if pyEqZero (pyGet fields "code") then .ok result
          else .error (.apiError (pyGet fields "code")
                        (pyGetD fields "msg" (.str "未知错误"))
                        (pyGet fields "data"))
        | _ => .error (.otherError "AttributeError")

/-- The `except` chain of `_make_request`, in source order:
`RequestException` → `XpyunNetworkError("网络请求失败: ...")`;
`json.JSONDecodeError` → `XpyunError("响应解析失败: ...")`;
`XpyunAPIError` re-raised unchanged; any other exception →
`XpyunError("未知错误: ...")`. -/
def handleExc : PyExc → XpyunExc
  | .requestException msg => .xpyunNetworkError ("网络请求失败: " ++ msg)
  | .jsonDecodeError msg => .xpyunError ("响应解析失败: " ++ msg)
  | .apiError c m d => .xpyunAPIError c m d
  | .otherError msg => .xpyunError ("未知错误: " ++ msg)

/-- `XpyunClient._make_request`: a single transport attempt whose failure,
if any, is classified by the `except` chain.  The function consumes exactly
one `HttpResult`, reflecting that the source makes exactly one `post` call
with no retry. -/
def make_request (resp : HttpResult) : Except XpyunExc Json :=
  match tryBody resp with
  | .ok r => .ok r
  | .error e => .error (handleExc e)

/-- Whether a `_make_request` outcome raises `XpyunAuthError`. -/
def raisesAuthError : Except XpyunExc Json → Bool
  | .error (.xpyunAuthError _) => true
  | _ => false

/-- Whether a `_make_request` outcome raises `XpyunNetworkError`. -/
def raisesNetworkError : Except XpyunExc Json → Bool
  | .error (.xpyunNetworkError _) => true
  | _ => false

/-! ### Helper lemmas -/

lemma mkData (l : List Char) : (String.mk l).data = l := rfl

lemma mkLength (l : List Char) : (String.mk l).length = l.length := rfl

lemma lowerChar_hexDigit : ∀ m, m < 16 → lowerChar (hexDigit m) = hexDigit m := by
  decide

lemma hexDigit_mem : ∀ m, m < 16 → hexDigit m ∈ hexDigits := by
  decide

lemma lowerChar_hexChar (n : Nat) : lowerChar (hexChar n) = hexChar n :=
  lowerChar_hexDigit _ (Nat.mod_lt _ (by norm_num))

lemma hexChar_mem (n : Nat) : hexChar n ∈ hexDigits :=
  hexDigit_mem _ (Nat.mod_lt _ (by norm_num))

lemma lowerAscii_sha1HexDigest (msg : List Nat) :
    lowerAscii (sha1HexDigest msg) = sha1HexDigest msg := by
  simp [lowerAscii, sha1HexDigest, wordHex, mkData, lowerChar_hexChar]

lemma sha1HexDigest_length (msg : List Nat) : (sha1HexDigest msg).length = 40 := by
  simp [sha1HexDigest, wordHex, mkLength]

lemma wordHex_subset {x : Nat} {c : Char} (h : c ∈ wordHex x) : c ∈ hexDigits := by
  simp only [wordHex, List.mem_cons, List.not_mem_nil, or_false] at h
  rcases h with h | h | h | h | h | h | h | h <;> (subst h; exact hexChar_mem _)

lemma sha1HexDigest_subset {msg : List Nat} {c : Char}
    (h : c ∈ (sha1HexDigest msg).data) : c ∈ hexDigits := by
  simp only [sha1HexDigest, mkData, List.mem_append] at h
  rcases h with ((((h | h) | h) | h) | h) <;> exact wordHex_subset h

/-! ### Claim theorems -/

/-- C1: for every identity, secret and timestamp string, `generate_sign`
returns the SHA-1 hex digest of the UTF-8 encoding of
`identity ++ secret ++ timestamp` in that exact order, rendered as exactly
40 lowercase hexadecimal characters, and is deterministic (equal inputs
give equal output). -/
theorem claim_C1 (identity secret timestamp : String) :
    generate_sign identity secret timestamp
      = sha1HexDigest (utf8Encode (identity ++ secret ++ timestamp)) ∧
    (generate_sign identity secret timestamp).length = 40 ∧
    (∀ c ∈ (generate_sign identity secret timestamp).data, c ∈ hexDigits) ∧
    (∀ i2 s2 t2 : String, identity = i2 → secret = s2 → timestamp = t2 →
      generate_sign identity secret timestamp = generate_sign i2 s2 t2) := by
  have hg : generate_sign identity secret timestamp
      = sha1HexDigest (utf8Encode (identity ++ secret ++ timestamp)) := by
    rw [generate_sign, lowerAscii_sha1HexDigest]
  refine ⟨hg, ?_, ?_, ?_⟩
  · rw [hg]; exact sha1HexDigest_length _
  · rw [hg]; intro c hc; exact sha1HexDigest_subset hc
  · intro i2 s2 t2 h1 h2 h3; rw [h1, h2, h3]

/-- Witness for C1 at the spec's example vector: the signature has length
40, and determinism holds at that input. -/
theorem claim_C1_witness :
    (generate_sign "1911342262@qq.com" "eebc89e280ba47c5a12d6dc750348811"
      "1700000000").length = 40 ∧
    generate_sign "1911342262@qq.com" "eebc89e280ba47c5a12d6dc750348811" "1700000000"
      = generate_sign "1911342262@qq.com" "eebc89e280ba47c5a12d6dc750348811"
        "1700000000" :=
  ⟨(claim_C1 "1911342262@qq.com" "eebc89e280ba47c5a12d6dc750348811"
      "1700000000").2.1,
   (claim_C1 "1911342262@qq.com" "eebc89e280ba47c5a12d6dc750348811"
      "1700000000").2.2.2 "1911342262@qq.com" "eebc89e280ba47c5a12d6dc750348811"
      "1700000000" rfl rfl rfl⟩

set_option maxRecDepth 100000 in
/-- Golden value for the spec's example vector, fixing the SHA-1 hex digest
of `"1911342262@qq.com" ++ "eebc89e280ba47c5a12d6dc750348811" ++
"1700000000"` computed by the embedded SHA-1. -/
theorem generate_sign_golden :
    generate_sign "1911342262@qq.com" "eebc89e280ba47c5a12d6dc750348811" "1700000000"
      = "5a7686511424b59153c9e05c1e9755c843dfcff2" := by
  rfl

/-! ### Dict lemmas for the envelope -/

lemma lookup_dictSet (d : List (String × Json)) (k : String) (v : Json) :
    List.lookup k (dictSet d k v) = some v := by
  induction d with
  | nil => simp [dictSet, List.lookup]
  | cons hd tl ih =>
    obtain ⟨k1, v1⟩ := hd
    by_cases h : k1 = k
    · subst h; simp [dictSet, List.lookup]
    · have hb : (k1 == k) = false := by simp [h]
      have hb2 : (k == k1) = false := by simp [Ne.symm h]
      simp [dictSet, hb, List.lookup, hb2, ih]

lemma lookup_dictSet_ne (d : List (String × Json)) (k k2 : String) (v : Json)
    (h : k2 ≠ k) : List.lookup k2 (dictSet d k v) = List.lookup k2 d := by
  induction d with
  | nil =>
    have hb2 : (k2 == k) = false := by simp [h]
    simp [dictSet, List.lookup, hb2]
  | cons hd tl ih =>
    obtain ⟨k1, v1⟩ := hd
    by_cases h1 : k1 = k
    · subst h1
      have hb2 : (k2 == k1) = false := by simp [h]
      simp [dictSet, List.lookup, hb2]
    · have hb : (k1 == k) = false := by simp [h1]
      simp [dictSet, hb, List.lookup, ih]

lemma dictUpdate_concat (d ps : List (String × Json)) (k : String) (v : Json) :
    dictUpdate d (ps ++ [(k, v)]) = dictSet (dictUpdate d ps) k v := by
  simp [dictUpdate, List.foldl_append]

lemma lookup_dictUpdate_not_mem (d params : List (String × Json)) (k : String)
    (h : k ∉ params.map Prod.fst) :
    List.lookup k (dictUpdate d params) = List.lookup k d := by
  induction params generalizing d with
  | nil => rfl
  | cons hd tl ih =>
    simp only [List.map_cons, List.mem_cons, not_or] at h
    rw [show dictUpdate d (hd :: tl) = dictUpdate (dictSet d hd.1 hd.2) tl from rfl,
      ih _ h.2, lookup_dictSet_ne _ _ _ _ h.1]

lemma buildRequestData_update (user user_key : String) (now nowMs : Nat)
    (params : List (String × Json)) :
    buildRequestData user user_key now nowMs params
      = dictUpdate
          (dictSet ((get_auth_params user user_key now).map
            fun kv => (kv.1, Json.str kv.2)) "requestTime" (.num nowMs))
          params := by
  cases params <;> rfl

/-- C2 counterexample: with credentials `("u", "k")`, clock reads `100`
seconds and `5` milliseconds, and caller params `{"timestamp": "evil"}`,
the outgoing envelope's `timestamp` entry is the caller's `"evil"`, not
the dispatcher-generated `str(100)` — caller params do override the
reserved keys. -/
theorem claim_C2_counterexample :
    List.lookup "timestamp"
        (buildRequestData "u" "k" 100 5 [("timestamp", Json.str "evil")])
      = some (Json.str "evil") ∧
    ¬ List.lookup "timestamp"
        (buildRequestData "u" "k" 100 5 [("timestamp", Json.str "evil")])
      = some (Json.str (toString 100)) := by
  refine ⟨rfl, fun h => ?_⟩
  have h3 : Json.str "evil" = Json.str (toString 100) :=
    Option.some.inj ((rfl :
      List.lookup "timestamp"
        (buildRequestData "u" "k" 100 5 [("timestamp", Json.str "evil")])
      = some (Json.str "evil")).symm.trans h)
  have h4 : "evil" = toString 100 := by injection h3
  exact absurd h4 (by decide)

/-- C2 (amended): a caller-supplied entry under a reserved envelope key
overrides the dispatcher-generated value — the last caller binding for a
key wins — while reserved keys that the caller does not supply keep the
dispatcher-generated values (`user`, `timestamp`, `sign` consistent with
the timestamp, and `requestTime`). -/
theorem claim_C2_amended (user user_key : String) (now nowMs : Nat) :
    (∀ (ps : List (String × Json)) (k : String) (v : Json),
      List.lookup k (buildRequestData user user_key now nowMs (ps ++ [(k, v)]))
        = some v) ∧
    (∀ params : List (String × Json),
      ("user" ∉ params.map Prod.fst →
        List.lookup "user" (buildRequestData user user_key now nowMs params)
          = some (.str user)) ∧
      ("timestamp" ∉ params.map Prod.fst →
        List.lookup "timestamp" (buildRequestData user user_key now nowMs params)
          = some (.str (toString now))) ∧
      ("sign" ∉ params.map Prod.fst →
        List.lookup "sign" (buildRequestData user user_key now nowMs params)
          = some (.str (generate_sign user user_key (toString now)))) ∧
      ("requestTime" ∉ params.map Prod.fst →
        List.lookup "requestTime" (buildRequestData user user_key now nowMs params)
          = some (.num nowMs))) := by
  constructor
  · intro ps k v
    rw [buildRequestData_update, dictUpdate_concat]
    exact lookup_dictSet _ _ _
  · intro params
    refine ⟨fun h => ?_, fun h => ?_, fun h => ?_, fun h => ?_⟩ <;>
      rw [buildRequestData_update, lookup_dictUpdate_not_mem _ _ _ h] <;> rfl

/-- Witness for C2 (amended): a caller `timestamp` wins at a concrete
input, and an untouched `sign` keeps the generated value. -/
theorem claim_C2_witness :
    List.lookup "timestamp"
        (buildRequestData "u" "k" 100 5
          [("a", Json.num 1), ("timestamp", Json.str "evil")])
      = some (Json.str "evil") ∧
    List.lookup "sign" (buildRequestData "u" "k" 100 5 [("a", Json.num 1)])
      = some (Json.str (generate_sign "u" "k" (toString 100))) := by
  constructor
  · exact (claim_C2_amended "u" "k" 100 5).1 [("a", Json.num 1)] "timestamp"
      (Json.str "evil")
  · exact ((claim_C2_amended "u" "k" 100 5).2 [("a", Json.num 1)]).2.2.1 (by decide)

/-! ### Dispatcher claims -/

lemma make_request_code_nonzero (status : Nat) (fields : List (String × Json))
    (hs : ¬(400 ≤ status ∧ status < 600))
    (h : pyEqZero (pyGet fields "code") = false) :
    make_request (.response status (.ok (.obj fields)))
      = .error (.xpyunAPIError (pyGet fields "code")
          (pyGetD fields "msg" (.str "未知错误")) (pyGet fields "data")) := by
  simp [make_request, tryBody, hs, h, handleExc]

/-- C3: for every transport response whose body is not valid JSON (and
whose status did not already fail `raise_for_status`), `_make_request`
raises the generic base error `XpyunError` with the "响应解析失败"
(response parse failed) message — not `XpyunNetworkError` and not the raw
parsing exception. -/
theorem claim_C3 (status : Nat) (e : String)
    (hs : ¬(400 ≤ status ∧ status < 600)) :
    make_request (.response status (.error e))
      = .error (.xpyunError ("响应解析失败: " ++ e)) ∧
    raisesNetworkError (make_request (.response status (.error e))) = false := by
  have h1 : make_request (.response status (.error e))
      = .error (.xpyunError ("响应解析失败: " ++ e)) := by
    simp [make_request, tryBody, hs, handleExc]
  exact ⟨h1, by rw [h1]; rfl⟩

/-- Witness for C3: a 200 response with an unparseable body yields the
generic parse-failure error. -/
theorem claim_C3_witness :
    make_request (.response 200 (.error "Expecting value"))
      = .error (.xpyunError ("响应解析失败: " ++ "Expecting value")) ∧
    raisesNetworkError (make_request (.response 200 (.error "Expecting value")))
      = false :=
  claim_C3 200 "Expecting value" (by decide)

/-- C4: for every valid-JSON response object whose `code` is not `0`,
`_make_request` raises `XpyunAPIError` whose `code` equals the response's
`code`, whose `message` equals the response's `msg` (or the default
"未知错误" / unknown-error text when `msg` is absent), and whose `data`
equals the response's `data` (possibly null). -/
theorem claim_C4 (status : Nat) (fields : List (String × Json))
    (hs : ¬(400 ≤ status ∧ status < 600))
    (h : pyEqZero (pyGet fields "code") = false) :
    make_request (.response status (.ok (.obj fields)))
      = .error (.xpyunAPIError (pyGet fields "code")
          (pyGetD fields "msg" (.str "未知错误")) (pyGet fields "data")) :=
  make_request_code_nonzero status fields hs h

/-- Witness for C4 at the spec's test vector `{code: 3, msg: "printer not
found"}`: the raised error carries code `3`, the message, and null data. -/
theorem claim_C4_witness :
    make_request (.response 200
        (.ok (.obj [("code", Json.num 3), ("msg", Json.str "printer not found")])))
      = .error (.xpyunAPIError (Json.num 3) (Json.str "printer not found")
          Json.null) :=
  claim_C4 200 [("code", Json.num 3), ("msg", Json.str "printer not found")]
    (by decide) rfl

/-- C5: for every valid-JSON response object whose `code` equals `0`,
`_make_request` returns the full parsed response object unchanged, not
merely the `data` payload. -/
theorem claim_C5 (status : Nat) (fields : List (String × Json))
    (hs : ¬(400 ≤ status ∧ status < 600))
    (h : pyEqZero (pyGet fields "code") = true) :
    make_request (.response status (.ok (.obj fields)))
      = .ok (.obj fields) := by
  simp [make_request, tryBody, hs, h]

/-- Witness for C5 at `{code: 0, data: "X"}`: the whole object comes back
and still contains `X` under `data`. -/
theorem claim_C5_witness :
    make_request (.response 200
        (.ok (.obj [("code", Json.num 0), ("data", Json.str "X")])))
      = .ok (.obj [("code", Json.num 0), ("data", Json.str "X")]) ∧
    pyGet [("code", Json.num 0), ("data", Json.str "X")] "data" = Json.str "X" :=
  ⟨claim_C5 200 [("code", Json.num 0), ("data", Json.str "X")] (by decide) rfl,
   rfl⟩

/-- C6: for every transport-level failure raised by the HTTP layer,
`_make_request` raises `XpyunNetworkError` whose message wraps the
underlying cause, never the raw transport exception; the embedding
consumes a single transport outcome, reflecting the single attempt with
no retry. -/
theorem claim_C6 (cause : String) :
    make_request (.transportError cause)
      = .error (.xpyunNetworkError ("网络请求失败: " ++ cause)) ∧
    raisesNetworkError (make_request (.transportError cause)) = true :=
  ⟨rfl, rfl⟩

/-- C7: `get_auth_params` is internally consistent: its `sign` entry is
`generate_sign` applied to the credentials and the very `timestamp` entry
emitted in the same mapping, and its `user` entry is the credential
identity supplied at construction. -/
theorem claim_C7 (user user_key : String) (now : Nat) :
    List.lookup "sign" (get_auth_params user user_key now)
      = some (generate_sign user user_key (toString now)) ∧
    List.lookup "timestamp" (get_auth_params user user_key now)
      = some (toString now) ∧
    List.lookup "user" (get_auth_params user user_key now) = some user :=
  ⟨rfl, rfl, rfl⟩

/-- C8: `_make_request` never raises `XpyunAuthError`: over every possible
transport outcome (transport failure, HTTP error status, invalid JSON,
non-dict JSON, non-zero or missing `code`, success), the outcome is never
the auth-error kind. -/
theorem claim_C8 (resp : HttpResult) :
    raisesAuthError (make_request resp) = false := by
  rcases resp with cause | ⟨status, body⟩
  · rfl
  · by_cases hs : 400 ≤ status ∧ status < 600
    · simp [make_request, tryBody, hs, handleExc, raisesAuthError]
    · rcases body with e | j
      · simp [make_request, tryBody, hs, handleExc, raisesAuthError]
      · rcases j with _ | b | n | s | el | fields
        · simp [make_request, tryBody, hs, handleExc, raisesAuthError]
        · simp [make_request, tryBody, hs, handleExc, raisesAuthError]
        · simp [make_request, tryBody, hs, handleExc, raisesAuthError]
        · simp [make_request, tryBody, hs, handleExc, raisesAuthError]
        · simp [make_request, tryBody, hs, handleExc, raisesAuthError]
        · by_cases hc : pyEqZero (pyGet fields "code") = true
          · simp [make_request, tryBody, hs, hc, raisesAuthError]
          · simp only [Bool.not_eq_true] at hc
            simp [make_request, tryBody, hs, hc, handleExc, raisesAuthError]

/-- C9: for every valid-JSON response object lacking a `code` field
entirely, `_make_request` treats it as a failure and raises
`XpyunAPIError` whose `code` is Python `None` (JSON null) — success
requires `code` to be present and equal to `0`. -/
theorem claim_C9 (status : Nat) (fields : List (String × Json))
    (hs : ¬(400 ≤ status ∧ status < 600))
    (h : List.lookup "code" fields = none) :
    make_request (.response status (.ok (.obj fields)))
      = .error (.xpyunAPIError Json.null
          (pyGetD fields "msg" (.str "未知错误")) (pyGet fields "data")) := by
  have hpg : pyGet fields "code" = Json.null := by unfold pyGet; rw [h]
  have h2 := make_request_code_nonzero status fields hs (by rw [hpg]; rfl)
  rw [hpg] at h2
  exact h2

/-- Witness for C9: the empty JSON object `{}` yields an `XpyunAPIError`
with null code, the default message and null data. -/
theorem claim_C9_witness :
    make_request (.response 200 (.ok (.obj [])))
      = .error (.xpyunAPIError Json.null (Json.str "未知错误") Json.null) :=
  claim_C9 200 [] (by decide) rfl

/-- C10: for every HTTP response with a 4xx or 5xx status,
`_make_request` raises `XpyunNetworkError` without inspecting the body —
the outcome is the same for every body, even a valid `{code: 0}` one —
because `raise_for_status` runs before body parsing and its failure is
classified as a transport failure. -/
theorem claim_C10 (status : Nat) (body body2 : Except String Json)
    (h4 : 400 ≤ status) (h6 : status < 600) :
    raisesNetworkError (make_request (.response status body)) = true ∧
    make_request (.response status body) = make_request (.response status body2) := by
  have hs : 400 ≤ status ∧ status < 600 := ⟨h4, h6⟩
  have h1 : ∀ b : Except String Json, make_request (.response status b)
      = .error (.xpyunNetworkError ("网络请求失败: " ++ httpStatusError status)) := by
    intro b
    simp [make_request, tryBody, hs, handleExc]
  exact ⟨by rw [h1]; rfl, by rw [h1, h1]⟩

/-- Witness for C10: a 500 response whose body is a valid success object
is still classified as a network error, identically to an unparseable
body. -/
theorem claim_C10_witness :
    raisesNetworkError (make_request (.response 500
        (.ok (.obj [("code", Json.num 0)])))) = true ∧
    make_request (.response 500 (.ok (.obj [("code", Json.num 0)])))
      = make_request (.response 500 (.error "boom")) :=
  claim_C10 500 (.ok (.obj [("code", Json.num 0)])) (.error "boom")
    (by decide) (by decide)

end XpyunSdk
